import Mathlib

/-!
Shallow embedding of the Sphero packet protocol engine
(`src/platforms/firmata/firmata_adaptor.go`, sphero driver section):
packet codec (`craftPacket`, `calculateChecksum`), transmit step (`write`),
receive framer (`readNextChunk`, `readHeader`, `readBody`, the `Start`
receive loop), response collector (`getSyncResponse`), async event
dispatcher, and the command API (`GetRGB`, `Roll`, `SetDataStreaming`,
`Stop`).

Bytes are modelled as `Nat` values below 256; machine-integer wraparound
(`uint8`, `uint16`) is made explicit with `% 256` / `% 65536` where the Go
code truncates.
-/

namespace Sphero

/-- A protocol packet as built by `craftPacket`: a 6-byte header
`[0xFF, 0xFF, did, cid, seq, dlen]`, a body, and a trailing checksum. -/
structure Packet where
  header : List Nat
  body : List Nat
  checksum : Nat
  deriving Repr, DecidableEq

/-- Function `calculateChecksum(buf)` from the source: sums the bytes into a
`uint16` accumulator, reduces mod 256, complements (`^` on `uint16`),
and truncates to `uint8`. -/
def calculateChecksum (buf : List Nat) : Nat :=
  (65535 - ((buf.sum % 65536) % 256)) % 256

/-- The checksum is the ones-complement of the byte sum mod 256. -/
theorem calculateChecksum_eq (buf : List Nat) :
    calculateChecksum buf = 255 - buf.sum % 256 := by
  unfold calculateChecksum
  omega

/-- Function `craftPacket(body, did, cid)` with the driver sequence counter `seq`:
header is `[0xFF, 0xFF, did, cid, seq, uint8(len(body)+1)]`, checksum is
computed over `(header ++ body)[2:]`. -/
def craftPacket (body : List Nat) (did cid seq : Nat) : Packet :=
  let dlen := (body.length + 1) % 256
  let header := [255, 255, did, cid, seq, dlen]
  { header := header
    body := body
    checksum := calculateChecksum ((header ++ body).drop 2) }

/-- Serialization performed by `write`: `header ++ body ++ [checksum]`. -/
def serializePacket (p : Packet) : List Nat :=
  p.header ++ p.body ++ [p.checksum]

/-- Outcome of one transport `Write` call: an I/O error, or the number of
bytes actually written. -/
inductive WriteResult where
  | writeFailed : WriteResult
  | wrote : Nat → WriteResult
  deriving Repr, DecidableEq

/-- Error produced by the `write` method of the driver. -/
inductive WriteError where
  | transportError : WriteError
  | notEnoughBytesWritten : WriteError
  deriving Repr, DecidableEq

/-- Method `write(packet)` from the source, acting on the sequence counter:
serializes the packet; a transport error or a short write returns an error
and leaves `seq` unchanged; on success `s.seq++` (a `uint8`, so it wraps
at 256). Returns the error (if any) and the new counter value. -/
def write (seq : Nat) (p : Packet) (res : WriteResult) :
    Option WriteError × Nat :=
  match res with
  | .writeFailed => (some .transportError, seq)
  | .wrote n =>
      if n = (serializePacket p).length then (none, (seq + 1) % 256)
      else (some .notEnoughBytesWritten, seq)

/-- The sequence counter after `n` successful transmissions. -/
def seqAfter (seq : Nat) : Nat → Nat
  | 0 => seq
  | n + 1 => seqAfter ((seq + 1) % 256) n

/-! Receive framer.

`readNextChunk(length)` allocates a `length`-byte buffer and loops
`sp.Read(read[bytesRead:])` until `bytesRead >= length`; a read error makes
it return `nil`.  Each transport read is modelled as `none` (I/O error) or
`some chunk`; a read can never deliver more than the remaining room of the
buffer, hence the `take`.  An exhausted schedule models a read loop that
blocks forever, also `none` here. -/

def readNextChunkAux (length : Nat) (acc : List Nat) :
    List (Option (List Nat)) → Option (List Nat)
  | [] => if length ≤ acc.length then some acc else none
  | r :: rs =>
      if length ≤ acc.length then some acc
      else
        match r with
        | none => none
        | some chunk =>
            readNextChunkAux length (acc ++ chunk.take (length - acc.length)) rs

/-- Function `readNextChunk(length)` over a schedule of transport read results. -/
def readNextChunk (length : Nat) (reads : List (Option (List Nat))) :
    Option (List Nat) :=
  readNextChunkAux length [] reads

/-- Method `readHeader()` from the source: `readNextChunk(5)`. -/
def readHeader (reads : List (Option (List Nat))) : Option (List Nat) :=
  readNextChunk 5 reads

/-- Method `readBody(length)` from the source: `readNextChunk(int(length))`. -/
def readBody (length : Nat) (reads : List (Option (List Nat))) :
    Option (List Nat) :=
  readNextChunk length reads

/-- The checksum test of the receive loop: `data[len-1]` must equal
`calculateChecksum(data[2 : len-1])`; a valid frame is kept, an invalid
one dropped. -/
def checkFrame (data : List Nat) : Option (List Nat) :=
  if data.getLastD 0 == calculateChecksum ((data.drop 2).dropLast)
  then some data else none

/-- One iteration of the receive loop in `Start`: read a 5-byte header,
read `header[4]` body bytes (a `nil` body appends nothing), and hand
`header ++ body` to the checksum test. -/
def receiveIteration (headerReads bodyReads : List (Option (List Nat))) :
    Option (List Nat) :=
  match readHeader headerReads with
  | none => none
  | some header =>
      if header.length = 0 then none
      else
        let body := (readBody (header.getD 4 0) bodyReads).getD []
        checkFrame (header ++ body)

/-- The receive loop viewed over a contiguous byte stream (the retry loop
of `readNextChunk` delivers exactly the requested count when the stream
holds it): take 5 header bytes, take `header[4]` body bytes, validate the
checksum of `header ++ body`. -/
def decodeStream (stream : List Nat) : Option (List Nat) :=
  if 5 ≤ stream.length then
    let header := stream.take 5
    let blen := header.getD 4 0
    if blen ≤ (stream.drop 5).length then
      checkFrame (header ++ (stream.drop 5).take blen)
    else none
  else none

/-! Response collector (`getSyncResponse`). -/

/-- The scan predicate of `getSyncResponse`: an entry matches when its
byte 3 equals the outgoing packet's sequence byte (`packet.header[4]`)
and its total length exceeds 6. -/
def matchesSync (seq : Nat) (entry : List Nat) : Bool :=
  entry.getD 3 0 == seq && decide (6 < entry.length)

/-- The inner `for key := range s.syncResponse` loop of `getSyncResponse`:
scan the buffer in order; at the first entry satisfying `matchesSync`,
remove the LAST element of the buffer and return it together with the
shrunk buffer.  (The scanned suffix is the first argument of the
recursion; `buf` stays the whole buffer, as in the source.) -/
def syncScanGo (seq : Nat) (buf : List (List Nat)) :
    List (List Nat) → Option (List Nat × List (List Nat))
  | [] => none
  | e :: rest =>
      if matchesSync seq e then some (buf.getLastD [], buf.dropLast)
      else syncScanGo seq buf rest

/-- One polling pass of `getSyncResponse` over the sync buffer. -/
def syncScanStep (seq : Nat) (buf : List (List Nat)) :
    Option (List Nat × List (List Nat)) :=
  syncScanGo seq buf buf

/-- The polling loop of `getSyncResponse`: up to `fuel` passes (500 in the
source, one per 100 µs tick); `bufAt i` is the content of the sync buffer
at the `i`-th pass.  When no pass matches, the empty result is returned. -/
def getSyncResponseLoop (seq : Nat) (bufAt : Nat → List (List Nat)) :
    Nat → Nat → List Nat
  | _, 0 => []
  | i, fuel + 1 =>
      match syncScanStep seq (bufAt i) with
      | some (r, _) => r
      | none => getSyncResponseLoop seq bufAt (i + 1) fuel

/-- Method `getSyncResponse(packet)`: poll the sync buffer 500 times for an entry
matching the packet's sequence byte; on timeout return `[]`. -/
def getSyncResponse (packet : Packet) (bufAt : Nat → List (List Nat)) :
    List Nat :=
  getSyncResponseLoop (packet.header.getD 4 0) bufAt 0 500

/-! Async event dispatcher. -/

/-- An event published by the dispatcher; the payload is the raw byte
slice `data[5:]` that `binary.Read` parses into the typed record
(`CollisionPacket` / `DataStreamingPacket`, both big-endian). -/
inductive SpheroEvent where
  | collision : List Nat → SpheroEvent
  | sensordata : List Nat → SpheroEvent
  deriving Repr, DecidableEq

/-- The per-frame dispatch of the `Start` async loop, fused with
`handleCollisionDetected` / `handleDataStreaming`: `evt[2] == 0x07` routes
to the collision handler, which publishes only when `len(evt) == 22` and
`evt[4] == 17`; `evt[2] == 0x03` routes to the streaming handler, which
publishes only when `len(evt) == 90`; everything else is dropped. -/
def dispatchAsyncFrame (evt : List Nat) : Option SpheroEvent :=
  if evt.getD 2 0 == 7 then
    if evt.length == 22 && evt.getD 4 0 == 17
    then some (.collision (evt.drop 5)) else none
  else if evt.getD 2 0 == 3 then
    if evt.length == 90 then some (.sensordata (evt.drop 5)) else none
  else none

/-! Command API. -/

/-- Constant `SensorFrequencyDefault`. -/
def SensorFrequencyDefault : Nat := 10

/-- Constant `SensorFrequencyMax`. -/
def SensorFrequencyMax : Nat := 420

/-- The guard of `SetDataStreaming`: `freq == 0 || freq >= SensorFrequencyMax`
selects the invalid/default branch. -/
def streamingDefaultBranch (freq : Nat) : Bool :=
  freq == 0 || decide (SensorFrequencyMax ≤ freq)

/-- The divisor `n` computed by `SetDataStreaming` (`uint16` division;
operands stay below 2^16 so no truncation is needed). -/
def streamingDivisor (freq : Nat) : Nat :=
  if streamingDefaultBranch freq
  then SensorFrequencyMax / SensorFrequencyDefault
  else SensorFrequencyMax / freq

/-- The divisor actually used by `streamingDivisor` in the branch taken. -/
def streamingDivisorDenom (freq : Nat) : Nat :=
  if streamingDefaultBranch freq then SensorFrequencyDefault else freq

/-- The frame-aggregation count after the `if frames == 0 { frames = 1 }`
coercion of `SetDataStreaming`. -/
def coercedFrames (frames : Nat) : Nat :=
  if frames = 0 then 1 else frames

/-- The `DataStreamingSetting` command structure filled in by
`SetDataStreaming`.  Modelled from the spec: the struct declaration itself
is outside `src/`; field order and widths follow the struct literal in
`SetDataStreaming` together with the spec (§3: divisor, frame-aggregation
count, per-iteration sample count, two 32-bit masks; `n` and `frames` are
`uint16`, `count` is `uint8`). -/
structure DataStreamingSetting where
  n : Nat
  m : Nat
  pcnt : Nat
  mask : Nat
  mask2 : Nat
  deriving Repr, DecidableEq

/-- Big-endian 16-bit serialization. -/
def u16be (x : Nat) : List Nat :=
  [x / 256 % 256, x % 256]

/-- Big-endian 32-bit serialization. -/
def u32be (x : Nat) : List Nat :=
  [x / 16777216 % 256, x / 65536 % 256, x / 256 % 256, x % 256]

/-- Modelled from the spec: `binary.Write(buf, binary.BigEndian, cmd)` for
`DataStreamingSetting` (§6: all multi-byte numeric fields big-endian),
in the field order of the struct literal in `SetDataStreaming`. -/
def serializeDSS (c : DataStreamingSetting) : List Nat :=
  u16be c.n ++ u16be c.m ++ [c.pcnt % 256] ++ u32be c.mask ++ u32be c.mask2

/-- The packet enqueued by `SetDataStreaming(freq, frames, mask, count,
mask2)`: body is the serialized setting, device id `0x02`, command id
`0x11`. -/
def setDataStreamingPacket (seq freq frames mask count mask2 : Nat) : Packet :=
  craftPacket
    (serializeDSS
      { n := streamingDivisor freq
        m := coercedFrames frames
        pcnt := count
        mask := mask
        mask2 := mask2 })
    2 0x11 seq

/-- The packet enqueued by `Roll(speed, heading)`: body
`[speed, uint8(heading >> 8), uint8(heading & 0xFF), 0x01]`, device id
`0x02`, command id `0x30` (`heading` is a `uint16`). -/
def rollPacket (seq speed heading : Nat) : Packet :=
  craftPacket [speed % 256, heading / 256 % 256, heading % 256, 1] 2 0x30 seq

/-- Method `Stop()`: enqueues `SetDataStreaming(SensorFrequencyDefault, 0, 0, 0, 0)`
and then `Roll(0, 0)`, in that order. -/
def stopPackets (seq : Nat) : List Packet :=
  [setDataStreamingPacket seq SensorFrequencyDefault 0 0 0 0,
   rollPacket seq 0 0]

/-- Method `GetRGB()`: retrieve the synchronous response to
`craftPacket([], 0x02, 0x22)`; when it has length 9 return bytes 5..7,
otherwise return `[]`. -/
def GetRGB (seq : Nat) (bufAt : Nat → List (List Nat)) : List Nat :=
  let buf := getSyncResponse (craftPacket [] 2 0x22 seq) bufAt
  if buf.length == 9 then [buf.getD 5 0, buf.getD 6 0, buf.getD 7 0]
  else []

/-! Helper lemmas. -/

/-- The sequence counter advances by one per successful transmission,
modulo 256. -/
theorem seqAfter_eq_add_mod (n : Nat) :
    ∀ seq, seq < 256 → seqAfter seq n = (seq + n) % 256 := by
  induction n with
  | zero =>
      intro seq hseq
      simpa [seqAfter] using (Nat.mod_eq_of_lt hseq).symm
  | succ n ih =>
      intro seq hseq
      have h1 : (seq + 1) % 256 < 256 := Nat.mod_lt _ (by omega)
      calc seqAfter seq (n + 1) = seqAfter ((seq + 1) % 256) n := rfl
        _ = ((seq + 1) % 256 + n) % 256 := ih _ h1
        _ = (seq + (n + 1)) % 256 := by
              rw [Nat.mod_add_mod]
              ring_nf

/-- Every successful `readNextChunk` accumulation has exactly the requested
length. -/
theorem readNextChunkAux_length (length : Nat) :
    ∀ (reads : List (Option (List Nat))) (acc l : List Nat),
      acc.length ≤ length →
      readNextChunkAux length acc reads = some l → l.length = length := by
  intro reads
  induction reads with
  | nil =>
      intro acc l hle h
      unfold readNextChunkAux at h
      split at h
      · cases h
        omega
      · cases h
  | cons r rs ih =>
      intro acc l hle h
      unfold readNextChunkAux at h
      split at h
      · cases h
        omega
      · match r, h with
        | none, h => cases h
        | some chunk, h =>
            refine ih _ l ?_ h
            simp only [List.length_append, List.length_take]
            omega

/-- Successful reads deliver exactly the requested byte count. -/
theorem readNextChunk_length (length : Nat) (reads : List (Option (List Nat)))
    (l : List Nat) (h : readNextChunk length reads = some l) :
    l.length = length :=
  readNextChunkAux_length length reads [] l (by simp) h

/-- A buffer without a matching entry yields no scan result. -/
theorem syncScanGo_none (seq : Nat) (buf : List (List Nat)) :
    ∀ l, (∀ e ∈ l, matchesSync seq e = false) → syncScanGo seq buf l = none := by
  intro l
  induction l with
  | nil => intro _; rfl
  | cons e rest ih =>
      intro h
      unfold syncScanGo
      rw [h e (by simp)]
      simp only [Bool.false_eq_true, if_false]
      exact ih fun x hx => h x (by simp [hx])

/-- A buffer with a matching entry makes the scan remove and return the
last buffer element. -/
theorem syncScanGo_some (seq : Nat) (buf : List (List Nat)) :
    ∀ l, (∃ e ∈ l, matchesSync seq e = true) →
      syncScanGo seq buf l = some (buf.getLastD [], buf.dropLast) := by
  intro l
  induction l with
  | nil => rintro ⟨e, he, _⟩; cases he
  | cons e rest ih =>
      rintro ⟨x, hx, hmatch⟩
      unfold syncScanGo
      rcases List.mem_cons.mp hx with h | h
      · subst h
        rw [hmatch]
        simp
      · by_cases he : matchesSync seq e = true
        · rw [he]; simp
        · rw [Bool.not_eq_true] at he
          rw [he]
          simp only [Bool.false_eq_true, if_false]
          exact ih ⟨x, h, hmatch⟩

/-- When no polling pass ever sees a match, the polling loop times out with
the empty result. -/
theorem getSyncResponseLoop_timeout (seq : Nat) (bufAt : Nat → List (List Nat))
    (h : ∀ i, syncScanStep seq (bufAt i) = none) :
    ∀ fuel i, getSyncResponseLoop seq bufAt i fuel = [] := by
  intro fuel
  induction fuel with
  | zero => intro i; rfl
  | succ fuel ih =>
      intro i
      unfold getSyncResponseLoop
      rw [h i]
      exact ih (i + 1)

/-- When passes before `k` see no match and pass `k` scans to a result,
the polling loop returns that result (provided `k` is within the fuel). -/
theorem getSyncResponseLoop_hit (seq : Nat) (bufAt : Nat → List (List Nat))
    (k : Nat) (r : List Nat) (b : List (List Nat))
    (hnone : ∀ i, i < k → syncScanStep seq (bufAt i) = none)
    (hhit : syncScanStep seq (bufAt k) = some (r, b)) :
    ∀ fuel i, i ≤ k → k < i + fuel →
      getSyncResponseLoop seq bufAt i fuel = r := by
  intro fuel
  induction fuel with
  | zero => intro i h1 h2; omega
  | succ fuel ih =>
      intro i h1 h2
      unfold getSyncResponseLoop
      by_cases hik : i = k
      · subst hik
        rw [hhit]
      · rw [hnone i (by omega)]
        exact ih (i + 1) (by omega) (by omega)

/-! Claim theorems. -/

/-- C2 counterexample: the body-length header byte of
`craftPacket([0x42], 0x02, 0x20)` is 2, not the body byte count 1 — the
field also counts the trailing checksum byte. -/
theorem craftPacket_bodyLength_counterexample :
    (craftPacket [0x42] 2 0x20 0).header.getD 5 0 = 2 ∧
    ([0x42] : List Nat).length = 1 ∧
    (craftPacket [0x42] 2 0x20 0).header.getD 5 0 ≠ ([0x42] : List Nat).length := by
  decide

/-- C2 (amended): for every device id, command id, sequence and body, the
frame built by `craftPacket` has body-length byte `len(body) + 1` (the
field counts the trailing checksum byte), and its checksum is the
ones-complement of the sum mod 256 of every byte from the device-id byte
through the end of the body (device id, command id, sequence, body-length
byte, body bytes). -/
theorem craftPacket_bodyLength_checksum (body : List Nat) (did cid seq : Nat) :
    (craftPacket body did cid seq).header.getD 5 0 = (body.length + 1) % 256 ∧
    (craftPacket body did cid seq).checksum =
      255 - ((did + cid + seq + (body.length + 1) % 256 + body.sum) % 256) := by
  constructor
  · rfl
  · show calculateChecksum
        (([255, 255, did, cid, seq, (body.length + 1) % 256] ++ body).drop 2) = _
    rw [calculateChecksum_eq]
    simp only [List.cons_append, List.nil_append, List.drop_succ_cons,
      List.drop_zero, List.sum_cons]
    ring_nf

/-- C5: the sequence counter is 8-bit; `craftPacket` stamps the current
value without advancing anything; a successful `write` advances it by
exactly one mod 256; a failed or short write leaves it unchanged; and
after 256 successful transmissions it has wrapped to its starting value,
so the 257th frame is crafted with the same sequence byte as the 1st. -/
theorem sequence_counter_behavior (seq n : Nat) (body : List Nat)
    (did cid : Nat) (hseq : seq < 256) :
    (craftPacket body did cid seq).header.getD 4 0 = seq ∧
    write seq (craftPacket body did cid seq)
        (.wrote (serializePacket (craftPacket body did cid seq)).length) =
      (none, (seq + 1) % 256) ∧
    (write seq (craftPacket body did cid seq) .writeFailed).2 = seq ∧
    (n ≠ (serializePacket (craftPacket body did cid seq)).length →
      (write seq (craftPacket body did cid seq) (.wrote n)).2 = seq) ∧
    seqAfter seq 256 = seq ∧
    craftPacket body did cid (seqAfter seq 256) = craftPacket body did cid seq := by
  have hwrap : seqAfter seq 256 = seq := by
    rw [seqAfter_eq_add_mod 256 seq hseq, Nat.add_mod_right, Nat.mod_eq_of_lt hseq]
  refine ⟨rfl, by simp [write], rfl, ?_, hwrap, by rw [hwrap]⟩
  intro hne
  simp [write, hne]

/-- C5 witness: the behavior at sequence value 7 with body `[1]` and a
short write of 0 bytes. -/
theorem sequence_counter_behavior_witness :
    (craftPacket [1] 2 3 7).header.getD 4 0 = 7 ∧
    write 7 (craftPacket [1] 2 3 7)
        (.wrote (serializePacket (craftPacket [1] 2 3 7)).length) =
      (none, (7 + 1) % 256) ∧
    (write 7 (craftPacket [1] 2 3 7) .writeFailed).2 = 7 ∧
    (0 ≠ (serializePacket (craftPacket [1] 2 3 7)).length →
      (write 7 (craftPacket [1] 2 3 7) (.wrote 0)).2 = 7) ∧
    seqAfter 7 256 = 7 ∧
    craftPacket [1] 2 3 (seqAfter 7 256) = craftPacket [1] 2 3 7 :=
  sequence_counter_behavior 7 0 [1] 2 3 (by decide)

/-- C6 counterexample: the streaming frame enqueued first by `Stop()` does
not encode a zero frame count — `SetDataStreaming` coerces the zero
`frames` argument to 1 before serializing, so payload bytes 2..3 are
`[0, 1]`, not `[0, 0]`. -/
theorem stop_streaming_frame_counterexample :
    stopPackets 0 =
      [setDataStreamingPacket 0 10 0 0 0 0, rollPacket 0 0 0] ∧
    (setDataStreamingPacket 0 10 0 0 0 0).body =
      [0, 42, 0, 1, 0, 0, 0, 0, 0, 0, 0, 0, 0] ∧
    (setDataStreamingPacket 0 10 0 0 0 0).body ≠
      serializeDSS { n := 42, m := 0, pcnt := 0, mask := 0, mask2 := 0 } := by
  decide

/-- C6 (amended): every call to `Stop()` enqueues exactly two frames, in
order: first a streaming-disable frame (command id `0x11` for data
streaming, payload encoding the frequency divisor for 10 Hz, `420/10 = 42`,
and a frame count of 1 — the zero frame-count argument is coerced to 1),
then a roll frame with speed 0 and heading 0. -/
theorem stop_enqueues_two_frames (seq : Nat) :
    (stopPackets seq).length = 2 ∧
    stopPackets seq =
      [craftPacket
        (serializeDSS { n := 42, m := 1, pcnt := 0, mask := 0, mask2 := 0 })
        2 0x11 seq,
       craftPacket [0, 0, 0, 1] 2 0x30 seq] :=
  ⟨rfl, rfl⟩

/-- C7 counterexample: `SetDataStreaming(10, 1, mask, 0, mask2)` does not
take the invalid/default branch — its guard is false at frequency 10,
while it is true at frequency 0. -/
theorem streaming_branch_counterexample :
    streamingDefaultBranch 0 = true ∧ streamingDefaultBranch 10 = false := by
  decide

/-- C7 (amended): `SetDataStreaming(0, ...)` and `SetDataStreaming(10, ...)`
compute the same internal frequency divisor (42), though the former takes
the invalid/default branch and the latter the valid branch; and for every
requested frequency the divisor computation divides by a nonzero
denominator (10 in the default branch, the frequency itself otherwise). -/
theorem streaming_divisor_equal_and_safe (freq : Nat) :
    streamingDivisor 0 = streamingDivisor 10 ∧
    streamingDefaultBranch 0 = true ∧
    streamingDefaultBranch 10 = false ∧
    streamingDivisorDenom freq ≠ 0 ∧
    streamingDivisor freq = SensorFrequencyMax / streamingDivisorDenom freq := by
  refine ⟨by decide, by decide, by decide, ?_, ?_⟩
  · by_cases h : streamingDefaultBranch freq = true
    · simp [streamingDivisorDenom, h, SensorFrequencyDefault]
    · rw [Bool.not_eq_true] at h
      have hfreq : freq ≠ 0 := by
        simp only [streamingDefaultBranch, Bool.or_eq_false_iff,
          beq_eq_false_iff_ne, decide_eq_false_iff_not, not_le] at h
        exact h.1
      simp [streamingDivisorDenom, h, hfreq]
  · unfold streamingDivisor streamingDivisorDenom
    split <;> rfl

/-- C9 counterexample: a frame of total length 22 whose third payload byte
(`data[4]`) equals 17 but whose async id code (`data[2]`) is not `0x07`
is silently discarded by the dispatcher, not published as a collision. -/
theorem dispatch_needs_idcode_counterexample :
    (([255, 254, 0, 0, 17] ++ List.replicate 17 0) : List Nat).length = 22 ∧
    (([255, 254, 0, 0, 17] ++ List.replicate 17 0) : List Nat).getD 4 0 = 17 ∧
    dispatchAsyncFrame ([255, 254, 0, 0, 17] ++ List.replicate 17 0) = none := by
  decide

/-- C9 (amended): for every frame drained from the async buffer, the
dispatcher publishes a collision record exactly when byte 2 equals `0x07`,
the total length is 22 and byte 4 equals 17; it publishes a streaming
sample record exactly when byte 2 equals `0x03` and the total length is
90; every other shape is silently discarded. -/
theorem dispatchAsyncFrame_characterization (evt : List Nat) :
    (dispatchAsyncFrame evt = some (.collision (evt.drop 5)) ↔
      evt.getD 2 0 = 7 ∧ evt.length = 22 ∧ evt.getD 4 0 = 17) ∧
    (dispatchAsyncFrame evt = some (.sensordata (evt.drop 5)) ↔
      evt.getD 2 0 = 3 ∧ evt.length = 90) ∧
    (evt.getD 2 0 ≠ 7 → evt.getD 2 0 ≠ 3 → dispatchAsyncFrame evt = none) := by
  simp only [dispatchAsyncFrame]
  generalize evt.getD 2 0 = a2
  generalize evt.getD 4 0 = a4
  generalize evt.length = n
  generalize evt.drop 5 = d
  by_cases h7 : a2 = 7 <;> by_cases h3 : a2 = 3 <;> by_cases h22 : n = 22 <;>
    by_cases h17 : a4 = 17 <;> by_cases h90 : n = 90 <;>
    first
      | (exfalso; omega)
      | simp [h7, h3, h22, h17, h90]

/-- C9 witness: a frame whose byte 2 is neither `0x07` nor `0x03` is
discarded by the dispatcher. -/
theorem dispatchAsyncFrame_characterization_witness :
    dispatchAsyncFrame [255, 254, 5, 0, 0] = none :=
  (dispatchAsyncFrame_characterization [255, 254, 5, 0, 0]).2.2
    (by decide) (by decide)

/-- C3 counterexample: the receive framer accumulates exactly 5 header
bytes, not 6 — offered a 6-byte read, `readHeader` consumes and returns
only the first 5 bytes. -/
theorem readHeader_five_bytes_counterexample :
    readHeader [some [1, 2, 3, 4, 5, 6]] = some [1, 2, 3, 4, 5] ∧
    (readHeader [some [1, 2, 3, 4, 5, 6]]).map List.length ≠ some 6 := by
  decide

/-- C3 (amended): on every receive iteration the framer first accumulates
exactly 5 header bytes (retrying partial reads), then extracts the
body-length field from the fifth header byte (`header[4]`) and reads
exactly that many further bytes as the body before handing header+body to
checksum validation. -/
theorem receive_framer_header_then_body (hr br : List (Option (List Nat)))
    (header body : List Nat)
    (hh : readHeader hr = some header)
    (hb : readBody (header.getD 4 0) br = some body) :
    header.length = 5 ∧
    body.length = header.getD 4 0 ∧
    receiveIteration hr br = checkFrame (header ++ body) := by
  have h5 : header.length = 5 := readNextChunk_length 5 hr header hh
  refine ⟨h5, readNextChunk_length _ br body hb, ?_⟩
  unfold receiveIteration
  rw [hh]
  simp only [h5]
  rw [if_neg (by omega), hb]
  rfl

/-- C3 witness: a header delivered in two partial reads (3 bytes then 2),
announcing a 3-byte body delivered in one read. -/
theorem receive_framer_header_then_body_witness :
    ([255, 255, 2, 0, 3] : List Nat).length = 5 ∧
    ([7, 8, 9] : List Nat).length = ([255, 255, 2, 0, 3] : List Nat).getD 4 0 ∧
    receiveIteration [some [255, 255, 2], some [0, 3]] [some [7, 8, 9]] =
      checkFrame ([255, 255, 2, 0, 3] ++ [7, 8, 9]) :=
  receive_framer_header_then_body [some [255, 255, 2], some [0, 3]]
    [some [7, 8, 9]] [255, 255, 2, 0, 3] [7, 8, 9] (by decide) (by decide)

/-- A frame consisting of two start bytes, a core, and the checksum of
that core passes the receive-loop checksum test. -/
theorem checkFrame_concat (l : List Nat) (a b : Nat) :
    checkFrame ((a :: b :: l) ++ [calculateChecksum l]) =
      some ((a :: b :: l) ++ [calculateChecksum l]) := by
  unfold checkFrame
  rw [List.getLastD_concat]
  have hdrop : ((a :: b :: l) ++ [calculateChecksum l]).drop 2 =
      l ++ [calculateChecksum l] := rfl
  rw [hdrop, List.dropLast_concat, beq_self_eq_true]
  rfl

/-- Unfolding of the stream decoder on a stream with at least 5 bytes. -/
theorem decodeStream_cons (a b c d e : Nat) (rest : List Nat) :
    decodeStream (a :: b :: c :: d :: e :: rest) =
      if e ≤ rest.length then checkFrame ([a, b, c, d, e] ++ rest.take e)
      else none := by
  have h5 : 5 ≤ (a :: b :: c :: d :: e :: rest).length := by
    simp [List.length_cons]
  unfold decodeStream
  rw [if_pos h5]
  rfl

/-- C4 counterexample: decoding the encoded frame for device id `0x02`,
command id `0x22`, sequence 0 and empty body fails checksum validation
and recovers nothing — the receiver treats byte 4 (the sequence byte, 0)
as the body length, mis-framing the stream. -/
theorem decode_encode_counterexample :
    serializePacket (craftPacket [] 2 0x22 0) = [255, 255, 2, 34, 0, 1, 218] ∧
    decodeStream (serializePacket (craftPacket [] 2 0x22 0)) = none := by
  decide

/-- C4 (amended): for every body and device-id/command-id/sequence value,
the encoded frame passes checksum validation when the checksum is
recomputed over the whole frame from the device-id byte through the end of
the body and compared with the trailing byte; but the receiver re-frames
the byte stream with a 5-byte header, taking byte 4 (the sequence byte) as
the body length, so the decode pipeline validates and recovers the frame
unchanged exactly in the coincidental case `seq = len(body) + 2`. -/
theorem encode_validates_conditional_roundtrip (body : List Nat)
    (did cid seq : Nat) :
    checkFrame (serializePacket (craftPacket body did cid seq)) =
      some (serializePacket (craftPacket body did cid seq)) ∧
    (seq = body.length + 2 →
      decodeStream (serializePacket (craftPacket body did cid seq)) =
        some (serializePacket (craftPacket body did cid seq))) := by
  have hcf : checkFrame (serializePacket (craftPacket body did cid seq)) =
      some (serializePacket (craftPacket body did cid seq)) :=
    checkFrame_concat ([did, cid, seq, (body.length + 1) % 256] ++ body) 255 255
  refine ⟨hcf, ?_⟩
  intro h
  have hs : serializePacket (craftPacket body did cid seq) =
      255 :: 255 :: did :: cid :: seq ::
        ((body.length + 1) % 256 ::
          (body ++ [calculateChecksum
            ([did, cid, seq, (body.length + 1) % 256] ++ body)])) := rfl
  rw [hs, decodeStream_cons]
  have hlen : ((body.length + 1) % 256 ::
      (body ++ [calculateChecksum
        ([did, cid, seq, (body.length + 1) % 256] ++ body)])).length =
      body.length + 2 := by
    simp
  rw [if_pos (by rw [hlen, h]), List.take_of_length_le (by rw [hlen, h])]
  rw [hs] at hcf
  exact hcf

/-- C4 witness: with body `[7, 8, 9]` and sequence 5 (= body length + 2),
the encoded frame validates and the decode pipeline returns it whole. -/
theorem encode_validates_conditional_roundtrip_witness :
    checkFrame (serializePacket (craftPacket [7, 8, 9] 2 0x22 5)) =
      some (serializePacket (craftPacket [7, 8, 9] 2 0x22 5)) ∧
    decodeStream (serializePacket (craftPacket [7, 8, 9] 2 0x22 5)) =
      some (serializePacket (craftPacket [7, 8, 9] 2 0x22 5)) := by
  obtain ⟨h1, h2⟩ := encode_validates_conditional_roundtrip [7, 8, 9] 2 0x22 5
  exact ⟨h1, h2 (by decide)⟩

/-- C1: evaluation at the failing input: with request sequence 5 and sync
buffer `[e1, e2]` where only `e1` matches the scan predicate (sequence
byte 5, length above 6), `getSyncResponse` removes and returns the LAST
entry `e2` — whose sequence byte is 9 — so the returned frame does not
satisfy the matching predicate, contradicting the claim. -/
theorem getSyncResponse_returns_unmatched_entry :
    matchesSync 5 [255, 255, 0, 5, 0, 1, 2] = true ∧
    matchesSync 5 [255, 255, 0, 9, 0, 1, 2] = false ∧
    syncScanStep 5 [[255, 255, 0, 5, 0, 1, 2], [255, 255, 0, 9, 0, 1, 2]] =
      some ([255, 255, 0, 9, 0, 1, 2], [[255, 255, 0, 5, 0, 1, 2]]) ∧
    getSyncResponse (craftPacket [] 2 0x22 5)
        (fun _ => [[255, 255, 0, 5, 0, 1, 2], [255, 255, 0, 9, 0, 1, 2]]) =
      [255, 255, 0, 9, 0, 1, 2] := by
  decide

/-- C8: when a well-formed 9-byte synchronous acknowledgement matching the
request's sequence is the sync-buffer content from polling pass `k < 500`
on, `GetRGB` returns exactly its bytes 5..7 (`[R, G, B]`); and when no
pass within the 500-poll budget ever sees a matching entry, `GetRGB`
returns the empty result — it has no error outcome at all. -/
theorem getRGB_reply_or_timeout (seq k R G B : Nat) (ack : List Nat)
    (bufAt : Nat → List (List Nat)) :
    ((k < 500 ∧ (∀ i, bufAt i = if i < k then [] else [ack]) ∧
        ack.length = 9 ∧ ack.getD 3 0 = seq ∧ ack.getD 5 0 = R ∧
        ack.getD 6 0 = G ∧ ack.getD 7 0 = B) →
      GetRGB seq bufAt = [R, G, B]) ∧
    ((∀ i, ∀ e ∈ bufAt i, matchesSync seq e = false) →
      GetRGB seq bufAt = []) := by
  constructor
  · rintro ⟨hk, hbuf, hlen, hseq, hR, hG, hB⟩
    have hmatch : matchesSync seq ack = true := by
      unfold matchesSync
      rw [hseq, hlen]
      simp
    have hnone : ∀ i, i < k → syncScanStep seq (bufAt i) = none := by
      intro i hi
      rw [hbuf i, if_pos hi]
      rfl
    have hhit : syncScanStep seq (bufAt k) = some (ack, []) := by
      rw [hbuf k, if_neg (lt_irrefl k)]
      simp [syncScanStep, syncScanGo, hmatch]
    have hresp : getSyncResponse (craftPacket [] 2 0x22 seq) bufAt = ack :=
      getSyncResponseLoop_hit seq bufAt k ack [] hnone hhit 500 0
        (Nat.zero_le k) (by omega)
    show (if (getSyncResponse (craftPacket [] 2 0x22 seq) bufAt).length == 9
        then [(getSyncResponse (craftPacket [] 2 0x22 seq) bufAt).getD 5 0,
              (getSyncResponse (craftPacket [] 2 0x22 seq) bufAt).getD 6 0,
              (getSyncResponse (craftPacket [] 2 0x22 seq) bufAt).getD 7 0]
        else []) = [R, G, B]
    rw [hresp, hlen, hR, hG, hB]
    rfl
  · intro hnm
    have hnone : ∀ i, syncScanStep seq (bufAt i) = none := fun i =>
      syncScanGo_none seq (bufAt i) (bufAt i) (hnm i)
    have hresp : getSyncResponse (craftPacket [] 2 0x22 seq) bufAt = [] :=
      getSyncResponseLoop_timeout seq bufAt hnone 500 0
    show (if (getSyncResponse (craftPacket [] 2 0x22 seq) bufAt).length == 9
        then [(getSyncResponse (craftPacket [] 2 0x22 seq) bufAt).getD 5 0,
              (getSyncResponse (craftPacket [] 2 0x22 seq) bufAt).getD 6 0,
              (getSyncResponse (craftPacket [] 2 0x22 seq) bufAt).getD 7 0]
        else []) = []
    rw [hresp]
    rfl

/-- C8 witness: a matching 9-byte acknowledgement arriving at polling pass
3 yields its colour bytes `[10, 20, 30]`; an always-empty buffer yields
the empty result. -/
theorem getRGB_reply_or_timeout_witness :
    GetRGB 0
        (fun i => if i < 3 then [] else [[255, 255, 0, 0, 4, 10, 20, 30, 40]]) =
      [10, 20, 30] ∧
    GetRGB 0 (fun _ => []) = [] := by
  constructor
  · exact (getRGB_reply_or_timeout 0 3 10 20 30 [255, 255, 0, 0, 4, 10, 20, 30, 40]
      (fun i => if i < 3 then [] else [[255, 255, 0, 0, 4, 10, 20, 30, 40]])).1
      ⟨by decide, fun i => rfl, by decide, by decide, by decide, by decide,
        by decide⟩
  · exact (getRGB_reply_or_timeout 0 0 0 0 0 [] (fun _ => [])).2
      (fun i e he => absurd he (List.not_mem_nil e))

/-- C10: whenever the synchronous reply retrieved by the colour-get path
does not have total length exactly 9, `GetRGB` returns the empty list —
the three colour bytes are extracted only from replies of length exactly
9. -/
theorem getRGB_empty_unless_length_nine (seq : Nat)
    (bufAt : Nat → List (List Nat))
    (h : (getSyncResponse (craftPacket [] 2 0x22 seq) bufAt).length ≠ 9) :
    GetRGB seq bufAt = [] := by
  show (if (getSyncResponse (craftPacket [] 2 0x22 seq) bufAt).length == 9
      then [(getSyncResponse (craftPacket [] 2 0x22 seq) bufAt).getD 5 0,
            (getSyncResponse (craftPacket [] 2 0x22 seq) bufAt).getD 6 0,
            (getSyncResponse (craftPacket [] 2 0x22 seq) bufAt).getD 7 0]
      else []) = []
  rw [if_neg (by simpa using h)]

/-- C10 witness: a matched reply of length 8 (sequence byte 0, non-empty
payload) still yields the empty list. -/
theorem getRGB_empty_unless_length_nine_witness :
    GetRGB 0 (fun _ => [[255, 255, 0, 0, 3, 1, 2, 3]]) = [] :=
  getRGB_empty_unless_length_nine 0 (fun _ => [[255, 255, 0, 0, 3, 1, 2, 3]])
    (by decide)

end Sphero
